import Mathlib

/-!
Verification of the PI-Calculator application (`src/app.py`).

The development shallowly embeds the two code paths the specification talks
about:

* `load_item_data` (app.py lines 33-70): reading a Parquet file, dropping
  rows with a null in any of the four required columns, dropping rows whose
  item name is blank after trimming, grouping by `(location, unit, name)`,
  averaging `avg_price` per group, rounding to 2 decimals, and extracting
  sorted distinct location/unit lists.  The fallible Parquet read is embedded
  as an `Except LoadError (List RawRow)` input; the nullable cells of a
  pandas frame are `Option` fields.  Prices are embedded as `ℚ`
  (numpy's `round(2)` half-to-even rounding is `round2` below).
  pandas `groupby(sort=True)` yields the groups in lexicographically sorted
  key order; the embedding produces the same list via `List.insertionSort`
  over the deduplicated key list.

* `chat_api` (app.py lines 93-137): the POST /api/chat handler.  The
  Gemini client is `Option Unit` (`none` = initialisation failed), the
  remote `generate_content` call is a function parameter returning
  `Except String String`, and the result records the HTTP status, body,
  whether a remote dispatch happened, and the prompt pair that was built.
-/

namespace PICalc

/-- A raw row of the Parquet source: the four required columns
(`subsubcategory`, `avg_price`, `location`, `unit_raw`), each possibly
null/NaN, which pandas `dropna` removes. -/
structure RawRow where
  item_name : Option String
  price : Option ℚ
  location : Option String
  unit : Option String
deriving DecidableEq

/-- A row in which all four required fields are present (survives
`df.dropna(subset=[COL_ITEM_NAME, COL_LOCATION, COL_UNIT, COL_PRICE])`). -/
structure CleanRow where
  item_name : String
  price : ℚ
  location : String
  unit : String
deriving DecidableEq

/-- One aggregated output record, as produced by
`grouped_df.columns = ['location', 'unit', 'name', 'price']` and
`to_dict('records')`. -/
structure AggRecord where
  location : String
  unit : String
  name : String
  price : ℚ
deriving DecidableEq

/-- The grouping key `(location, unit, name)` of
`df.groupby([COL_LOCATION, COL_UNIT, COL_ITEM_NAME])`. -/
abbrev Key := String × String × String

/-- Lexicographic (non-strict) order on grouping keys: the order in which
pandas `groupby(..., sort=True)` emits its groups. -/
def keyLE (a b : Key) : Prop :=
  a.1 < b.1 ∨ (a.1 = b.1 ∧ (a.2.1 < b.2.1 ∨ (a.2.1 = b.2.1 ∧ a.2.2 ≤ b.2.2)))

/-- Strict lexicographic order on grouping keys. -/
def keyLT (a b : Key) : Prop :=
  a.1 < b.1 ∨ (a.1 = b.1 ∧ (a.2.1 < b.2.1 ∨ (a.2.1 = b.2.1 ∧ a.2.2 < b.2.2)))

instance : DecidableRel keyLE := fun a b => by unfold keyLE; infer_instance

instance : DecidableRel keyLT := fun a b => by unfold keyLT; infer_instance

/-- `df.dropna(subset=[COL_ITEM_NAME, COL_LOCATION, COL_UNIT, COL_PRICE])`
(app.py line 40): keep exactly the rows in which all four required cells are
present. -/
def dropna (rows : List RawRow) : List CleanRow :=
  rows.filterMap fun r =>
    match r.item_name, r.price, r.location, r.unit with
    | some n, some p, some l, some u => some ⟨n, p, l, u⟩
    | _, _, _, _ => none

/-- Python's `str.strip()`: remove leading and trailing whitespace
characters (embedded over the string's character list). -/
def strip (s : String) : String :=
  ⟨((s.data.dropWhile Char.isWhitespace).reverse.dropWhile Char.isWhitespace).reverse⟩

/-- `df = df[df[COL_ITEM_NAME].astype(str).str.strip() != '']` after `dropna`
(app.py lines 40-41): the rows that survive cleaning.  Note that only the
item-name column is tested for blankness; blank `location`/`unit` strings
survive. -/
def surviving (rows : List RawRow) : List CleanRow :=
  (dropna rows).filter fun r => decide (strip r.item_name ≠ "")

/-- The grouping key of a clean row. -/
def keyOf (r : CleanRow) : Key :=
  (r.location, r.unit, r.item_name)

/-- The grouping key of an aggregated record. -/
def keyOfRec (r : AggRecord) : Key :=
  (r.location, r.unit, r.name)

/-- The distinct grouping keys of a clean-row list, first occurrence first. -/
def groupKeys (rows : List CleanRow) : List Key :=
  (rows.map keyOf).dedup

/-- The group of a key: the clean rows carrying that key. -/
def groupRowsClean (rows : List CleanRow) (k : Key) : List CleanRow :=
  rows.filter fun r => decide (keyOf r = k)

/-- The group of a key among the surviving rows of a raw input. -/
def groupRows (rows : List RawRow) (k : Key) : List CleanRow :=
  groupRowsClean (surviving rows) k

/-- The arithmetic mean of the `avg_price` column of a group
(`...[COL_PRICE].mean()`, app.py line 44). -/
def meanPrice (rows : List CleanRow) : ℚ :=
  (rows.map (·.price)).sum / rows.length

/-- numpy's round-half-to-even applied to a rational. -/
def roundHalfToEven (q : ℚ) : ℤ :=
  let f : ℤ := q.floor
  if q - f < 1/2 then f
  else if 1/2 < q - f then f + 1
  else if f % 2 = 0 then f else f + 1

/-- `grouped_df['price'].round(2)` (app.py line 50): round to 2 decimal
places with numpy's half-to-even tie rule. -/
def round2 (q : ℚ) : ℚ :=
  (roundHalfToEven (q * 100) : ℚ) / 100

/-- The aggregation pipeline on cleaned rows (app.py lines 44-50): group by
`(location, unit, name)` — pandas emits the groups sorted by key — take the
mean price of each group and round it to 2 decimals. -/
def aggregateClean (rows : List CleanRow) : List AggRecord :=
  (List.insertionSort keyLE (groupKeys rows)).map fun k =>
    ⟨k.1, k.2.1, k.2.2, round2 (meanPrice (groupRowsClean rows k))⟩

/-- `sorted(grouped_df['location'].unique().tolist())` (app.py line 53). -/
def unique_locations (records : List AggRecord) : List String :=
  List.insertionSort (· ≤ ·) (records.map (·.location)).dedup

/-- `sorted(grouped_df['unit'].unique().tolist())` (app.py line 54). -/
def unique_units (records : List AggRecord) : List String :=
  List.insertionSort (· ≤ ·) (records.map (·.unit)).dedup

/-- The failure modes caught by `load_item_data`'s except-clauses
(app.py lines 62-70). -/
inductive LoadError where
  | fileNotFound
  | keyError (details : String)
  | other (msg : String)
deriving DecidableEq

/-- `load_item_data` (app.py lines 33-70).  The fallible
`pd.read_parquet` step is embedded as the `Except` input: on any read
failure every except-clause returns the triple of empty collections; on a
successful read the rows are cleaned, aggregated, and the sorted distinct
location/unit lists are extracted. -/
def load_item_data (source : Except LoadError (List RawRow)) :
    List AggRecord × List String × List String :=
  match source with
  | Except.error _ => ([], [], [])
  | Except.ok rows =>
    let item_data_list := aggregateClean (surviving rows)
    (item_data_list, unique_locations item_data_list, unique_units item_data_list)

/-- Renders an aggregated price for the JSON payload; prices reaching this
point are exact hundredths, printed with two decimal places (the textual
details of pandas float printing are not modelled further). -/
def decimal2 (q : ℚ) : String :=
  let n : ℤ := (q * 100).floor
  let sign := if n < 0 then "-" else ""
  let m := n.natAbs
  sign ++ toString (m / 100) ++ "." ++
    (if m % 100 < 10 then "0" else "") ++ toString (m % 100)

/-- One record of `pd.DataFrame(PI_DATA).to_json(orient='records')`
(app.py line 105); string escaping is not modelled. -/
def recordJson (r : AggRecord) : String :=
  "\x7b\"location\":\"" ++ r.location ++ "\",\"unit\":\"" ++ r.unit ++
    "\",\"name\":\"" ++ r.name ++ "\",\"price\":" ++ decimal2 r.price ++ "\x7d"

/-- `pd.DataFrame(PI_DATA).to_json(orient='records')` (app.py line 105). -/
def item_data_json (records : List AggRecord) : String :=
  "[" ++ String.intercalate "," (records.map recordJson) ++ "]"

/-- The prompt construction of `chat_api` (app.py lines 103-121): the fixed
system instruction (with the record count interpolated) and the full prompt
(data section plus user question). -/
def build_prompt (records : List AggRecord) (user_prompt : String) :
    String × String :=
  let system_instruction :=
    "You are an expert Price Intelligent (PI) assistant. Your task is to analyze the provided " ++
    "JSON data containing item names, locations, units, and average prices in RM, and answer " ++
    "the user's question based *only* on this data. The data has " ++
    toString records.length ++ " entries." ++
    "Provide specific item names, prices, locations, and units from the data to support your answer. " ++
    "Do not invent information. Format the final response clearly, using bold text for key results."
  let full_prompt :=
    "Data for analysis (JSON Array of Objects):\n" ++
    "```json\n" ++ item_data_json records ++ "\n```\n\n" ++
    "User Question:\n" ++ user_prompt
  (system_instruction, full_prompt)

/-- The observable outcome of one `chat_api` call: HTTP status and JSON body,
whether a remote `generate_content` dispatch happened, and the
`(system_instruction, full_prompt)` pair if one was built. -/
structure ChatResult where
  status : Nat
  body : String
  dispatched : Bool
  prompt_built : Option (String × String)
deriving DecidableEq

/-- The module-level Gemini client initialisation (app.py lines 26-30):
`genai.Client(...)` either succeeds or raises, in which case the module
variable is set to `None`. -/
def init_gemini_client (result : Except String Unit) : Option Unit :=
  match result with
  | Except.ok u => some u
  | Except.error _ => none

/-- `chat_api` (app.py lines 93-137).  `gemini_client` is the module-level
client (`none` when initialisation failed); `pi_data` is the startup
snapshot `PI_DATA`; `prompt` is `request.json.get('prompt')` (`none` when
the field is absent); `generate_content` is the remote Gemini call, which
either returns response text or raises.  Python's `if not user_prompt`
treats both an absent and an empty prompt as missing. -/
def chat_api (gemini_client : Option Unit) (pi_data : List AggRecord)
    (prompt : Option String)
    (generate_content : String → String → Except String String) : ChatResult :=
  match gemini_client with
  | none =>
    ⟨500, "AI Client not initialized. Please check your API key and setup.", false, none⟩
  | some _ =>
    match prompt with
    | none => ⟨400, "No prompt provided.", false, none⟩
    | some user_prompt =>
      if user_prompt = "" then ⟨400, "No prompt provided.", false, none⟩
      else
        let p := build_prompt pi_data user_prompt
        match generate_content p.1 p.2 with
        | Except.ok text => ⟨200, text, true, some p⟩
        | Except.error e =>
          ⟨500, "Sorry, there was an error processing your request: " ++ toString e, true, some p⟩

/-! ### Order facts about the grouping key -/

instance : IsTotal Key keyLE := by
  constructor
  intro a b
  unfold keyLE
  rcases lt_trichotomy a.1 b.1 with h | h | h
  · exact Or.inl (Or.inl h)
  · rcases lt_trichotomy a.2.1 b.2.1 with h2 | h2 | h2
    · exact Or.inl (Or.inr ⟨h, Or.inl h2⟩)
    · rcases le_total a.2.2 b.2.2 with h3 | h3
      · exact Or.inl (Or.inr ⟨h, Or.inr ⟨h2, h3⟩⟩)
      · exact Or.inr (Or.inr ⟨h.symm, Or.inr ⟨h2.symm, h3⟩⟩)
    · exact Or.inr (Or.inr ⟨h.symm, Or.inl h2⟩)
  · exact Or.inr (Or.inl h)

instance : IsTrans Key keyLE := by
  constructor
  intro a b c hab hbc
  unfold keyLE at *
  rcases hab with h1 | ⟨e1, hab2⟩
  · rcases hbc with h2 | ⟨e2, _⟩
    · exact Or.inl (lt_trans h1 h2)
    · exact Or.inl (by rw [← e2]; exact h1)
  · rcases hbc with h2 | ⟨e2, hbc2⟩
    · exact Or.inl (by rw [e1]; exact h2)
    · refine Or.inr ⟨e1.trans e2, ?_⟩
      rcases hab2 with g1 | ⟨f1, g1⟩
      · rcases hbc2 with g2 | ⟨f2, g2⟩
        · exact Or.inl (lt_trans g1 g2)
        · exact Or.inl (by rw [← f2]; exact g1)
      · rcases hbc2 with g2 | ⟨f2, g2⟩
        · exact Or.inl (by rw [f1]; exact g2)
        · exact Or.inr ⟨f1.trans f2, le_trans g1 g2⟩

theorem keyLT_of_keyLE_of_ne {a b : Key} (h : keyLE a b) (hne : a ≠ b) :
    keyLT a b := by
  obtain ⟨a1, a2, a3⟩ := a
  obtain ⟨b1, b2, b3⟩ := b
  unfold keyLE at h
  unfold keyLT
  rcases h with h1 | ⟨e1, h2 | ⟨e2, h3⟩⟩
  · exact Or.inl h1
  · exact Or.inr ⟨e1, Or.inl h2⟩
  · dsimp only at e1 e2 h3 ⊢
    subst e1
    subst e2
    refine Or.inr ⟨rfl, Or.inr ⟨rfl, lt_of_le_of_ne h3 fun h => hne (by rw [h])⟩⟩

/-! ### Structural lemmas about the cleaning pipeline -/

theorem surviving_append (l1 l2 : List RawRow) :
    surviving (l1 ++ l2) = surviving l1 ++ surviving l2 := by
  unfold surviving dropna
  rw [List.filterMap_append, List.filter_append]

/-- A raw row that violates one of the validity requirements enforced by
app.py lines 40-41: some required field is null, or the item name is blank
after stripping. -/
def invalidRow (r : RawRow) : Prop :=
  r.item_name = none ∨ r.price = none ∨ r.location = none ∨ r.unit = none ∨
    (∃ s, r.item_name = some s ∧ strip s = "")

theorem surviving_invalid {r : RawRow} (h : invalidRow r) :
    surviving [r] = [] := by
  obtain ⟨i, p, l, u⟩ := r
  rcases h with h | h | h | h | ⟨s, hs, hstrip⟩ <;>
    simp only [RawRow.mk.injEq] at * <;>
    cases i <;> cases p <;> cases l <;> cases u <;>
      simp_all [surviving, dropna, List.filterMap, List.filter]

theorem keyOfRec_of_aggregateClean {rows : List CleanRow} {r : AggRecord}
    (h : r ∈ aggregateClean rows) :
    ∃ k ∈ List.insertionSort keyLE (groupKeys rows),
      r = ⟨k.1, k.2.1, k.2.2, round2 (meanPrice (groupRowsClean rows k))⟩ ∧
        keyOfRec r = k := by
  unfold aggregateClean at h
  obtain ⟨k, hk, rfl⟩ := List.mem_map.1 h
  obtain ⟨k1, k2, k3⟩ := k
  exact ⟨(k1, k2, k3), hk, rfl, rfl⟩

theorem map_keyOfRec_aggregateClean (rows : List CleanRow) :
    (aggregateClean rows).map keyOfRec = List.insertionSort keyLE (groupKeys rows) := by
  unfold aggregateClean
  rw [List.map_map]
  refine Eq.trans (List.map_congr_left fun k _ => ?_) (List.map_id _)
  obtain ⟨k1, k2, k3⟩ := k
  rfl

theorem nodup_sorted_groupKeys (rows : List CleanRow) :
    (List.insertionSort keyLE (groupKeys rows)).Nodup :=
  ((List.perm_insertionSort keyLE (groupKeys rows)).symm).nodup
    (List.nodup_dedup (rows.map keyOf))

theorem unique_locations_spec (records : List AggRecord) :
    (unique_locations records).Pairwise (· < ·) ∧
      ∀ s, s ∈ unique_locations records ↔ ∃ r ∈ records, r.location = s := by
  constructor
  · have hs : (unique_locations records).Sorted (· ≤ ·) :=
      List.sorted_insertionSort _ _
    have hn : (unique_locations records).Nodup :=
      (List.perm_insertionSort _ _).symm.nodup (List.nodup_dedup _)
    exact hs.lt_of_le hn
  · intro s
    unfold unique_locations
    rw [(List.perm_insertionSort _ _).mem_iff, List.mem_dedup, List.mem_map]

theorem unique_units_spec (records : List AggRecord) :
    (unique_units records).Pairwise (· < ·) ∧
      ∀ s, s ∈ unique_units records ↔ ∃ r ∈ records, r.unit = s := by
  constructor
  · have hs : (unique_units records).Sorted (· ≤ ·) :=
      List.sorted_insertionSort _ _
    have hn : (unique_units records).Nodup :=
      (List.perm_insertionSort _ _).symm.nodup (List.nodup_dedup _)
    exact hs.lt_of_le hn
  · intro s
    unfold unique_units
    rw [(List.perm_insertionSort _ _).mem_iff, List.mem_dedup, List.mem_map]

/-! ### Claim theorems -/

/-- C1: for every input dataset, the aggregated record collection returned by
the loader contains no two records with the same `(location, unit, name)`
key; each key appears at most once. -/
theorem C1_key_unique (rows : List RawRow) :
    (((load_item_data (Except.ok rows)).1).map keyOfRec).Nodup := by
  show ((aggregateClean (surviving rows)).map keyOfRec).Nodup
  rw [map_keyOfRec_aggregateClean]
  exact nodup_sorted_groupKeys _

/-- C2: every aggregated record's price is the arithmetic mean of the prices
of all surviving input rows sharing its `(location, unit, name)` key, rounded
to 2 decimal places. -/
theorem C2_price_is_rounded_mean {rows : List RawRow} {r : AggRecord}
    (h : r ∈ (load_item_data (Except.ok rows)).1) :
    r.price = round2 (meanPrice (groupRows rows (keyOfRec r))) := by
  have h' : r ∈ aggregateClean (surviving rows) := h
  obtain ⟨k, _, rfl, hk⟩ := keyOfRec_of_aggregateClean h'
  rw [hk]
  rfl

/-- C2 witness: the spec's example — two Rice rows at KL/kg with prices 5 and
7 produce the single record with price 6, whose price is the rounded mean of
its group. -/
theorem C2_witness :
    (⟨"KL", "kg", "Rice", 6⟩ : AggRecord).price =
      round2 (meanPrice (groupRows
        [⟨some "Rice", some 5, some "KL", some "kg"⟩,
         ⟨some "Rice", some 7, some "KL", some "kg"⟩]
        (keyOfRec ⟨"KL", "kg", "Rice", 6⟩))) :=
  C2_price_is_rounded_mean (by with_unfolding_all decide)

/-- C3 counterexample: a row whose `location` is the blank (whitespace-only)
string " " — but whose item name is fine — is NOT dropped: it produces an
aggregated record, contradicting the claim that a blank in any of the four
fields excludes the row. -/
theorem C3_counterexample :
    strip " " = "" ∧
      (load_item_data (Except.ok
        [⟨some "Rice", some 5, some " ", some "kg"⟩])).1 =
        [⟨" ", "kg", "Rice", 5⟩] := by
  constructor
  · decide
  · with_unfolding_all decide

/-- C3 (amended): a row at any position of the input contributes nothing to
the aggregated record collection when a required field is absent (null) or
when its item name is blank after stripping; blank location/unit strings do
not exclude a row. -/
theorem C3_amended_invalid_row_anywhere_no_contribution
    (l1 l2 : List RawRow) (r : RawRow) (h : invalidRow r) :
    load_item_data (Except.ok (l1 ++ r :: l2)) =
      load_item_data (Except.ok (l1 ++ l2)) := by
  have hs : surviving (l1 ++ r :: l2) = surviving (l1 ++ l2) := by
    have hr : l1 ++ r :: l2 = l1 ++ [r] ++ l2 := by simp
    rw [hr, surviving_append, surviving_append, surviving_invalid h,
      List.append_nil, ← surviving_append]
  simp only [load_item_data, hs]

/-- C3 witness: a row with a blank item name (and otherwise valid fields),
sitting between two valid rows, contributes nothing. -/
theorem C3_witness :
    load_item_data (Except.ok
      [⟨some "Rice", some 5, some "KL", some "kg"⟩,
       ⟨some " ", some 1, some "KL", some "kg"⟩,
       ⟨some "Oil", some 9, some "JB", some "l"⟩]) =
      load_item_data (Except.ok
        [⟨some "Rice", some 5, some "KL", some "kg"⟩,
         ⟨some "Oil", some 9, some "JB", some "l"⟩]) :=
  C3_amended_invalid_row_anywhere_no_contribution
    [⟨some "Rice", some 5, some "KL", some "kg"⟩]
    [⟨some "Oil", some 9, some "JB", some "l"⟩] _
    (Or.inr (Or.inr (Or.inr (Or.inr ⟨" ", rfl, by decide⟩))))

/-- C4: a row in which any of the four required fields is absent (null), or
whose item name is empty/whitespace-only after trimming, contributes nothing
to the aggregated record collection: deleting it from the input leaves the
loader's entire output unchanged. -/
theorem C4_invalid_row_no_contribution (l1 l2 : List RawRow) (r : RawRow)
    (h : invalidRow r) :
    load_item_data (Except.ok (l1 ++ r :: l2)) =
      load_item_data (Except.ok (l1 ++ l2)) := by
  have hs : surviving (l1 ++ r :: l2) = surviving (l1 ++ l2) := by
    have hr : l1 ++ r :: l2 = l1 ++ [r] ++ l2 := by simp
    rw [hr, surviving_append, surviving_append, surviving_invalid h,
      List.append_nil, ← surviving_append]
  simp only [load_item_data, hs]

/-- C4 witness: a row with a null price contributes nothing. -/
theorem C4_witness :
    load_item_data (Except.ok [⟨some "Rice", none, some "KL", some "kg"⟩]) =
      load_item_data (Except.ok []) :=
  C4_invalid_row_no_contribution [] [] _ (Or.inr (Or.inl rfl))

/-- C5: the locations and units lists are strictly sorted under string
ordering (hence duplicate-free) and consist of exactly the location
(respectively unit) values occurring in the aggregated records. -/
theorem C5_category_lists (rows : List RawRow) :
    ((load_item_data (Except.ok rows)).2.1).Pairwise (· < ·) ∧
      (∀ s, s ∈ (load_item_data (Except.ok rows)).2.1 ↔
        ∃ r ∈ (load_item_data (Except.ok rows)).1, r.location = s) ∧
      ((load_item_data (Except.ok rows)).2.2).Pairwise (· < ·) ∧
      (∀ s, s ∈ (load_item_data (Except.ok rows)).2.2 ↔
        ∃ r ∈ (load_item_data (Except.ok rows)).1, r.unit = s) := by
  have hl := unique_locations_spec (aggregateClean (surviving rows))
  have hu := unique_units_spec (aggregateClean (surviving rows))
  exact ⟨hl.1, hl.2, hu.1, hu.2⟩

/-- C6: on any loader failure (file not found, missing column, or any other
read error) the loader returns exactly three empty collections instead of
raising past its boundary. -/
theorem C6_load_failure_yields_empty (e : LoadError) :
    load_item_data (Except.error e) = ([], [], []) := rfl

/-- C7 counterexample: a request with no `prompt` field made while the client
is uninitialized does NOT get a 400 response (it gets the 500
"not initialized" response first), refuting the claim as universally
stated. -/
theorem C7_counterexample :
    (chat_api none [] none (fun _ _ => Except.error "boom")).status = 500 ∧
      (chat_api none [] none (fun _ _ => Except.error "boom")).status ≠ 400 := by
  exact ⟨rfl, by decide⟩

/-- C7 (amended): while the client is initialized, every request whose body
lacks a `prompt` field or carries an empty prompt gets the 400 response
"No prompt provided.", with no prompt built and no remote dispatch. -/
theorem C7_missing_prompt_400 (pi_data : List AggRecord)
    (generate_content : String → String → Except String String)
    (prompt : Option String) (h : prompt = none ∨ prompt = some "") :
    chat_api (some ()) pi_data prompt generate_content =
      ⟨400, "No prompt provided.", false, none⟩ := by
  rcases h with rfl | rfl
  · rfl
  · with_unfolding_all rfl

/-- C7 witness: the empty-body request against an initialized client. -/
theorem C7_witness :
    chat_api (some ()) [] none (fun _ _ => Except.error "boom2") =
      ⟨400, "No prompt provided.", false, none⟩ :=
  C7_missing_prompt_400 [] _ none (Or.inl rfl)

/-- C8: while the client was never successfully initialized, every chat
request short-circuits with the 500 "AI Client not initialized" response,
builds no prompt, and performs no remote dispatch. -/
theorem C8_uninitialized_short_circuits (e : String) (pi_data : List AggRecord)
    (prompt : Option String)
    (generate_content : String → String → Except String String) :
    chat_api (init_gemini_client (Except.error e)) pi_data prompt generate_content =
      ⟨500, "AI Client not initialized. Please check your API key and setup.",
        false, none⟩ := rfl

/-- C9: the aggregated record list is sorted strictly ascending in the
lexicographic order on its `(location, unit, name)` key. -/
theorem C9_records_sorted_by_key (rows : List RawRow) :
    (((load_item_data (Except.ok rows)).1).map keyOfRec).Pairwise keyLT := by
  show ((aggregateClean (surviving rows)).map keyOfRec).Pairwise keyLT
  rw [map_keyOfRec_aggregateClean]
  have hs : (List.insertionSort keyLE (groupKeys (surviving rows))).Pairwise keyLE :=
    List.sorted_insertionSort keyLE _
  exact hs.imp₂ (fun _ _ hle hne => keyLT_of_keyLE_of_ne hle hne)
    (nodup_sorted_groupKeys (surviving rows))

/-- C10: the uninitialized-client check precedes prompt validation — even a
request with an absent or empty prompt gets the 500 "not initialized"
response, never the 400 validation response, while the client is
uninitialized. -/
theorem C10_init_check_precedes_validation (pi_data : List AggRecord)
    (generate_content : String → String → Except String String)
    (prompt : Option String) (h : prompt = none ∨ prompt = some "") :
    (chat_api none pi_data prompt generate_content).status = 500 ∧
      (chat_api none pi_data prompt generate_content).body =
        "AI Client not initialized. Please check your API key and setup." ∧
      (chat_api none pi_data prompt generate_content).status ≠ 400 := by
  refine ⟨rfl, rfl, fun hc => ?_⟩
  have h5 : (500 : Nat) = 400 := hc
  exact absurd h5 (by decide)

/-- C10 witness: the concrete empty-body request against the uninitialized
client. -/
theorem C10_witness :
    (chat_api none [] none (fun _ _ => Except.error "down")).status = 500 ∧
      (chat_api none [] none (fun _ _ => Except.error "down")).body =
        "AI Client not initialized. Please check your API key and setup." ∧
      (chat_api none [] none (fun _ _ => Except.error "down")).status ≠ 400 :=
  C10_init_check_precedes_validation [] _ none (Or.inl rfl)

end PICalc
